import Mathlib

/-!
Shallow embedding of the health-model aggregation core of the `azurescripts`
repository (directory `healthmodel/src`): the entity/dependency graph
(`models/health_model_config.py`), the per-entity health records consumed from
the REST client, and the derived views of `integration.py`
(`get_health_tree`, `get_workload_health`, `get_health_summary`,
`get_dependency_impact`, `get_critical_path`), together with the declarative
JSON serialization round trip (`to_dict` / `load_from_json`).

Conventions of the embedding:
* Python `dict`s (which preserve insertion order) are modelled as association
  lists `List (String × α)`; `dictGet` is `d.get(k)`, `dictInsert` is
  `d[k] = v` (replace in place when the key exists, append otherwise).
* A missing dictionary key is an `Option` that is `none`; `o.getD v` is
  Python's `d.get(k, v)`.
* Python floats are modelled as exact rationals `Rat`; the claims proved here
  do not depend on floating-point rounding.
* Wall-clock timestamp bookkeeping (`created_at`, `last_modified`,
  `summary["timestamp"]`, `generated_at`) is ambient time and carries no
  claim; those fields are omitted from the embedding.
* Fallible code (`load_from_json`, which lets `ValueError` from
  `EntityType(...)` escape) is embedded in `Except String`.
-/

namespace HealthModel

/-- Python `d.get(k)` on an insertion-ordered dict modelled as an
association list. -/
def dictGet {κ α : Type} [DecidableEq κ] (k : κ) : List (κ × α) → Option α
  | [] => none
  | (k', v) :: rest => if k' = k then some v else dictGet k rest

/-- Python `d[k] = v`: replace the value in place when `k` is already a key
(insertion order of existing keys is preserved), append otherwise. -/
def dictInsert {κ α : Type} [DecidableEq κ] (k : κ) (v : α) :
    List (κ × α) → List (κ × α)
  | [] => [(k, v)]
  | (k', v') :: rest =>
      if k' = k then (k, v) :: rest else (k', v') :: dictInsert k v rest

/-- The `EntityType` enum of `models/health_model_config.py`. -/
inductive EntityType where
  | workload
  | service
  | database
  | vm
  | container
  | api
  | load_balancer
  | cache
  | message_queue
  | custom
deriving DecidableEq, Repr

/-- The `.value` string of each `EntityType` member, exactly as declared in
the Python enum (note `VM = "virtual_machine"`). -/
def EntityType.value : EntityType → String
  | .workload => "workload"
  | .service => "service"
  | .database => "database"
  | .vm => "virtual_machine"
  | .container => "container"
  | .api => "api"
  | .load_balancer => "load_balancer"
  | .cache => "cache"
  | .message_queue => "message_queue"
  | .custom => "custom"

/-- Python `EntityType(s)`: look a string up by enum value; `none` models the
`ValueError` raised when `s` is not a declared value. -/
def EntityType.ofValue (s : String) : Option EntityType :=
  if s = "workload" then some .workload
  else if s = "service" then some .service
  else if s = "database" then some .database
  else if s = "virtual_machine" then some .vm
  else if s = "container" then some .container
  else if s = "api" then some .api
  else if s = "load_balancer" then some .load_balancer
  else if s = "cache" then some .cache
  else if s = "message_queue" then some .message_queue
  else if s = "custom" then some .custom
  else none

/-- The `EntityDependency` dataclass: a directed edge, `source_entity_id` is the
entity depended upon, `target_entity_id` the entity that depends on it. -/
structure EntityDependency where
  source_entity_id : String
  target_entity_id : String
  dependency_type : String
  criticality : String
deriving DecidableEq, Repr

/-- The `HealthModelEntity` dataclass. Free-form `metadata` values pass through
serialization untouched, so they are modelled as strings. -/
structure HealthModelEntity where
  id : String
  name : String
  entity_type : EntityType
  description : String
  parent_entity_id : Option String
  azure_resource_id : Option String
  signals : List (String × String)
  metadata : List (String × String)
deriving DecidableEq, Repr

/-- The `HealthModelConfig` dataclass: the entity graph. `entities` is the
insertion-ordered dict `id -> entity`; `dependencies` is the edge list in
insertion order. -/
structure HealthModelConfig where
  model_id : String
  model_name : String
  description : String
  owner_team : String
  version : String
  entities : List (String × HealthModelEntity)
  dependencies : List EntityDependency
deriving DecidableEq, Repr

/-- Python `HealthModelConfig.add_entity`: `self.entities[entity.id] = entity`
(last write wins). -/
def HealthModelConfig.add_entity (c : HealthModelConfig)
    (e : HealthModelEntity) : HealthModelConfig :=
  { c with entities := dictInsert e.id e c.entities }

/-- Python `HealthModelConfig.add_dependency`: append to the edge list. -/
def HealthModelConfig.add_dependency (c : HealthModelConfig)
    (d : EntityDependency) : HealthModelConfig :=
  { c with dependencies := c.dependencies ++ [d] }

/-- Python `get_entity_dependencies`: all edges whose `target_entity_id` is
`entity_id` ("what this entity depends on"), in edge insertion order. -/
def HealthModelConfig.get_entity_dependencies (c : HealthModelConfig)
    (entity_id : String) : List EntityDependency :=
  c.dependencies.filter (fun d => d.target_entity_id == entity_id)

/-- Python `get_entity_dependents`: all edges whose `source_entity_id` is
`entity_id` ("what depends on this entity"), in edge insertion order. -/
def HealthModelConfig.get_entity_dependents (c : HealthModelConfig)
    (entity_id : String) : List EntityDependency :=
  c.dependencies.filter (fun d => d.source_entity_id == entity_id)

/-- One per-entity health record as produced by the REST client
(`api/health_state_client.py`): a JSON object whose keys may be absent, so
every field is an `Option`.  `kind` and `displayName` stand for the nested
`details["kind"]` / `details["displayName"]` accesses of `integration.py`. -/
structure HealthRecord where
  state : Option String
  state_color : Option String
  state_code : Option String
  timestamp : Option String
  kind : Option String
  displayName : Option String
deriving DecidableEq, Repr

/-- The records snapshot: Python dict `entity_id -> record` in insertion
order. -/
abbrev HealthRecords := List (String × HealthRecord)

/-- The synthetic placeholder returned by `get_workload_health` for an empty
snapshot: `{"state": "Unknown", "state_color": "gray", "state_code":
"UNKNOWN"}`. -/
def placeholderRecord : HealthRecord :=
  { state := some "Unknown", state_color := some "gray",
    state_code := some "UNKNOWN", timestamp := none, kind := none,
    displayName := none }

/-- The test `health.get('details', {}).get('kind') == 'System_HealthModelRoot'`. -/
def isRootRecord (h : HealthRecord) : Bool :=
  h.kind == some "System_HealthModelRoot"

/-- Python `HealthModelIntegration.get_workload_health`: first record whose
`details.kind` marks the health-model root; else the first record of the
snapshot; else the synthetic `Unknown/gray` placeholder. -/
def get_workload_health (all_entities : HealthRecords) : HealthRecord :=
  match all_entities.find? (fun p => isRootRecord p.2) with
  | some p => p.2
  | none =>
    match all_entities with
    | p :: _ => p.2
    | [] => placeholderRecord

/-- The `depends_on`/`depended_by` summary of
`HealthModelIntegration._get_entity_deps`. -/
structure DepSummary where
  depends_on : List String
  depended_by : List String
deriving DecidableEq, Repr

/-- Python `HealthModelIntegration._get_entity_deps`. -/
def get_entity_deps (cfg : HealthModelConfig) (entity_id : String) :
    DepSummary :=
  { depends_on :=
      (cfg.get_entity_dependencies entity_id).map
        (fun d => d.source_entity_id),
    depended_by :=
      (cfg.get_entity_dependents entity_id).map
        (fun d => d.target_entity_id) }

/-- One value of the tree built by `get_health_tree` (`type_` carries the
Python key `"type"`, `parent` the key `"parent"`). -/
structure TreeEntry where
  name : String
  type_ : String
  state : String
  state_color : String
  timestamp : Option String
  parent : Option String
  signals : List (String × String)
  dependencies : DepSummary
deriving DecidableEq, Repr

/-- Python `HealthModelIntegration.get_health_tree`: one tree entry per entity of
the graph, keyed by the entity dict key, in entity insertion order;
`all_health.get(entity_id, {})` followed by `.get("state", "Unknown")` /
`.get("state_color", "gray")` is the `Option.bind`/`getD` chain below
(`HealthState.UNKNOWN.value == "Unknown"`). -/
def get_health_tree (cfg : HealthModelConfig) (all_health : HealthRecords) :
    List (String × TreeEntry) :=
  cfg.entities.map (fun p =>
    let health := dictGet p.1 all_health
    (p.1,
      { name := p.2.name,
        type_ := p.2.entity_type.value,
        state := (health.bind (fun h => h.state)).getD "Unknown",
        state_color := (health.bind (fun h => h.state_color)).getD "gray",
        timestamp := health.bind (fun h => h.timestamp),
        parent := p.2.parent_entity_id,
        signals := p.2.signals,
        dependencies := get_entity_deps cfg p.1 }))

/-- A `{"entity_id": ..., "entity_name": ...}` element of the
`entities_by_state` lists of `get_health_summary`. -/
structure EntityRef where
  entity_id : String
  entity_name : String
deriving DecidableEq, Repr

/-- The summary dict of `get_health_summary`, with the nested
`health_percentages` and `entities_by_state` dicts flattened into fields
(the wall-clock `timestamp` field is omitted, see the module comment). -/
structure HealthSummary where
  total_entities : Nat
  healthy_count : Nat
  degraded_count : Nat
  unhealthy_count : Nat
  unknown_count : Nat
  pct_healthy : Rat
  pct_degraded : Rat
  pct_unhealthy : Rat
  pct_unknown : Rat
  healthy_entities : List EntityRef
  degraded_entities : List EntityRef
  unhealthy_entities : List EntityRef
  unknown_entities : List EntityRef
deriving DecidableEq, Repr

/-- The body of the counting loop of `get_health_summary`:
`state = health.get("state", "Unknown").lower()`, display name
`details.displayName` defaulting to the entity id, then the
healthy/degraded/unhealthy/else-unknown cascade. -/
def summary_step (s : HealthSummary) (p : String × HealthRecord) :
    HealthSummary :=
  let state := (p.2.state.getD "Unknown").toLower
  let entity_name := p.2.displayName.getD p.1
  if state = "healthy" then
    { s with healthy_count := s.healthy_count + 1,
             healthy_entities := s.healthy_entities ++ [⟨p.1, entity_name⟩] }
  else if state = "degraded" then
    { s with degraded_count := s.degraded_count + 1,
             degraded_entities := s.degraded_entities ++ [⟨p.1, entity_name⟩] }
  else if state = "unhealthy" then
    { s with unhealthy_count := s.unhealthy_count + 1,
             unhealthy_entities :=
               s.unhealthy_entities ++ [⟨p.1, entity_name⟩] }
  else
    { s with unknown_count := s.unknown_count + 1,
             unknown_entities := s.unknown_entities ++ [⟨p.1, entity_name⟩] }

/-- Python `HealthModelIntegration.get_health_summary`: counts by bucket, then
percentages `count / total * 100` guarded by `if total > 0`. -/
def get_health_summary (all_health : HealthRecords) : HealthSummary :=
  let base : HealthSummary :=
    { total_entities := all_health.length,
      healthy_count := 0, degraded_count := 0, unhealthy_count := 0,
      unknown_count := 0,
      pct_healthy := 0, pct_degraded := 0, pct_unhealthy := 0,
      pct_unknown := 0,
      healthy_entities := [], degraded_entities := [],
      unhealthy_entities := [], unknown_entities := [] }
  let s := all_health.foldl summary_step base
  if 0 < s.total_entities then
    { s with
      pct_healthy := (s.healthy_count : Rat) / (s.total_entities : Rat) * 100,
      pct_degraded :=
        (s.degraded_count : Rat) / (s.total_entities : Rat) * 100,
      pct_unhealthy :=
        (s.unhealthy_count : Rat) / (s.total_entities : Rat) * 100,
      pct_unknown :=
        (s.unknown_count : Rat) / (s.total_entities : Rat) * 100 }
  else s

/-- One element of `impact["affected_services"]`. -/
structure AffectedService where
  entity_id : String
  entity_name : String
  criticality : String
  dependency_type : String
deriving DecidableEq, Repr

/-- A value of the `impact` dict built by `get_dependency_impact`
(`null` is Python `None`). -/
inductive ImpactValue where
  | str (s : String)
  | null
  | services (l : List AffectedService)
deriving DecidableEq, Repr

/-- The `severity_levels` rank dict of `get_dependency_impact`. -/
def severity_levels : List (String × Nat) :=
  [("critical", 3), ("high", 2), ("medium", 1), ("low", 0)]

/-- The inverse `severity_map` dict of `get_dependency_impact`. -/
def severity_map : List (Nat × String) :=
  [(3, "critical"), (2, "high"), (1, "medium"), (0, "low")]

/-- Python `max(list)` on a non-empty list (the call in
`get_dependency_impact` is guarded by `if dependents:`; the `[]` case is
unreachable there). -/
def pymax : List Nat → Nat
  | [] => 0
  | x :: xs => xs.foldl max x

/-- Python `HealthModelIntegration.get_dependency_impact`, purified: the code
builds the four-key `impact` dict, then — when `dependents` is non-empty —
overwrites `impact_severity` with the inverse-mapped maximal rank and
appends to `affected_services` one entry per dependent edge whose target
entity resolves in the graph. -/
def get_dependency_impact (cfg : HealthModelConfig) (entity_id : String) :
    List (String × ImpactValue) :=
  let dependents := cfg.get_entity_dependents entity_id
  let base : List (String × ImpactValue) :=
    [("failed_entity", .str entity_id),
     ("failed_entity_name",
       match dictGet entity_id cfg.entities with
       | some e => .str e.name
       | none => .null),
     ("affected_services", .services []),
     ("impact_severity", .str "low")]
  if dependents.isEmpty then base
  else
    let max_severity :=
      pymax (dependents.map
        (fun d => (dictGet d.criticality severity_levels).getD 0))
    let sev := (dictGet max_severity severity_map).getD "low"
    let affected := dependents.foldl
      (fun acc dep =>
        match dictGet dep.target_entity_id cfg.entities with
        | some e =>
            acc ++ [{ entity_id := e.id, entity_name := e.name,
                      criticality := dep.criticality,
                      dependency_type := dep.dependency_type }]
        | none => acc)
      []
    dictInsert "impact_severity" (.str sev)
      (dictInsert "affected_services" (.services affected) base)

/-- The test `d.criticality in ["critical", "high"]` of `get_critical_path`. -/
def isCriticalOrHigh (d : EntityDependency) : Bool :=
  (["critical", "high"] : List String).contains d.criticality

/-- All `source_entity_id`s of the graph's edges: every id the critical-path
walk can push beyond its start. -/
def allSources (cfg : HealthModelConfig) : List String :=
  cfg.dependencies.map (fun d => d.source_entity_id)

/-- Termination measure of `trace`: the candidate ids (pending worklist plus
every edge source) not yet appended to the path. -/
def unvisitedCount (cfg : HealthModelConfig)
    (stack path : List String) : Nat :=
  ((stack ++ allSources cfg).toFinset.filter (fun x => x ∉ path)).card

/-- The `trace_critical` recursion of `get_critical_path`, as a worklist
depth-first walk: visiting `entity_id` pushes the sources of its
critical/high inbound edges in front of the pending ids, which reproduces
the recursive visit order.  In the Python code `visited` is always exactly
the set of ids appended to `critical_path`, so a single list carries both
roles. -/
def trace (cfg : HealthModelConfig) (stack path : List String) :
    List String :=
  match stack with
  | [] => path
  | entity_id :: rest =>
    if entity_id ∈ path then
      trace cfg rest path
    else
      trace cfg
        ((((cfg.get_entity_dependencies entity_id).filter
            isCriticalOrHigh).map (fun d => d.source_entity_id)) ++ rest)
        (path ++ [entity_id])
termination_by (unvisitedCount cfg stack path, stack.length)
decreasing_by
  · have he : unvisitedCount cfg (entity_id :: rest) path
        = unvisitedCount cfg rest path := by
      unfold unvisitedCount
      rw [List.cons_append, List.toFinset_cons, Finset.filter_insert,
        if_neg (by simp [*])]
    rw [he]
    exact Prod.Lex.right _ (by simp)
  · apply Prod.Lex.left
    unfold unvisitedCount
    have hsub :
        ((((cfg.get_entity_dependencies entity_id).filter
            isCriticalOrHigh).map (fun d => d.source_entity_id) ++ rest)
          ++ allSources cfg).toFinset.filter
            (fun x => x ∉ path ++ [entity_id])
        ⊆ (((entity_id :: rest) ++ allSources cfg).toFinset.filter
            (fun x => x ∉ path)).erase entity_id := by
      intro x hx
      rw [Finset.mem_filter, List.mem_toFinset] at hx
      obtain ⟨hmem, hnp⟩ := hx
      rw [List.mem_append, List.mem_append] at hmem
      have hnp' : x ∉ path ∧ x ≠ entity_id := by
        constructor
        · intro hc; exact hnp (by simp [hc])
        · intro hc; exact hnp (by simp [hc])
      rw [Finset.mem_erase]
      refine ⟨hnp'.2, ?_⟩
      rw [Finset.mem_filter, List.mem_toFinset]
      refine ⟨?_, hnp'.1⟩
      rcases hmem with (hmem | hS)
      · rcases hmem with (hcrit | hrest)
        · rw [List.mem_map] at hcrit
          obtain ⟨d, hd, hdx⟩ := hcrit
          rw [List.mem_filter] at hd
          have hd' : d ∈ cfg.dependencies := by
            have := hd.1
            rw [HealthModelConfig.get_entity_dependencies,
              List.mem_filter] at this
            exact this.1
          simp only [List.cons_append, List.mem_cons, List.mem_append]
          right; right
          rw [allSources, List.mem_map]
          exact ⟨d, hd', hdx⟩
        · simp [hrest]
      · simp [hS]
    have hidmem : entity_id ∈
        ((entity_id :: rest) ++ allSources cfg).toFinset.filter
          (fun x => x ∉ path) := by
      rw [Finset.mem_filter, List.mem_toFinset]
      exact ⟨by simp, by assumption⟩
    exact lt_of_le_of_lt (Finset.card_le_card hsub)
      (Finset.card_erase_lt_of_mem hidmem)

/-- Python `HealthModelIntegration.get_critical_path`: depth-first walk of
critical/high edges starting at the literal id `"root"`. -/
def get_critical_path (cfg : HealthModelConfig) : List String :=
  trace cfg ["root"] []

/-- The JSON shape of one entity produced by `HealthModelEntity.to_dict`
and consumed by `load_from_json` (`type_` carries the key `"type"`).
Keys read with `.get(..., default)` are `Option`s; keys read with `[...]`
(a `KeyError` on absence, outside this spec's claims) are plain fields. -/
structure EntityDoc where
  id : String
  name : String
  type_ : String
  description : String
  parentEntityId : Option String
  azureResourceId : Option String
  signals : Option (List (String × String))
  metadata : Option (List (String × String))
deriving DecidableEq, Repr

/-- The JSON shape of one dependency edge in the declarative document. -/
structure DependencyDoc where
  sourceEntityId : String
  targetEntityId : String
  dependencyType : Option String
  criticality : Option String
deriving DecidableEq, Repr

/-- The declarative JSON document of `HealthModelConfig.to_dict` /
`load_from_json` (wall-clock `createdAt`/`lastModified` omitted, see the
module comment). -/
structure ConfigDoc where
  modelId : String
  modelName : String
  description : String
  ownerTeam : String
  version : Option String
  entities : List (String × EntityDoc)
  dependencies : List DependencyDoc
deriving DecidableEq, Repr

/-- Python `HealthModelEntity.to_dict`. -/
def HealthModelEntity.to_dict (e : HealthModelEntity) : EntityDoc :=
  { id := e.id, name := e.name, type_ := e.entity_type.value,
    description := e.description, parentEntityId := e.parent_entity_id,
    azureResourceId := e.azure_resource_id, signals := some e.signals,
    metadata := some e.metadata }

/-- Python `HealthModelConfig.to_dict`. -/
def HealthModelConfig.to_dict (c : HealthModelConfig) : ConfigDoc :=
  { modelId := c.model_id, modelName := c.model_name,
    description := c.description, ownerTeam := c.owner_team,
    version := some c.version,
    entities := c.entities.map (fun p => (p.1, p.2.to_dict)),
    dependencies := c.dependencies.map (fun d =>
      { sourceEntityId := d.source_entity_id,
        targetEntityId := d.target_entity_id,
        dependencyType := some d.dependency_type,
        criticality := some d.criticality }) }

/-- The body of the entity-loading loop of `load_from_json`: build the
`HealthModelEntity` from `entity_data` — `EntityType(entity_data["type"])`
raises `ValueError` on an undeclared value, modelled as `Except.error` —
then `config.add_entity(entity)` (which keys by `entity.id`, not by the
JSON dict key). -/
def load_entity_step (cfg : HealthModelConfig) (p : String × EntityDoc) :
    Except String HealthModelConfig :=
  match EntityType.ofValue p.2.type_ with
  | none =>
      Except.error (String.append p.2.type_ " is not a valid EntityType")
  | some ty =>
      Except.ok (cfg.add_entity
        { id := p.2.id, name := p.2.name, entity_type := ty,
          description := p.2.description,
          parent_entity_id := p.2.parentEntityId,
          azure_resource_id := p.2.azureResourceId,
          signals := p.2.signals.getD [],
          metadata := p.2.metadata.getD [] })

/-- Python `HealthModelConfig.load_from_json`: build the model-level config, load
every entity in document order (a `ValueError` from an undeclared entity
type aborts the whole load — no incomplete graph escapes), then append every
dependency edge in document order. -/
def HealthModelConfig.load_from_json (data : ConfigDoc) :
    Except String HealthModelConfig := do
  let config0 : HealthModelConfig :=
    { model_id := data.modelId, model_name := data.modelName,
      description := data.description, owner_team := data.ownerTeam,
      version := data.version.getD "1.0.0",
      entities := [], dependencies := [] }
  let config1 ← data.entities.foldlM load_entity_step config0
  let config2 := data.dependencies.foldl
    (fun cfg dd => cfg.add_dependency
      { source_entity_id := dd.sourceEntityId,
        target_entity_id := dd.targetEntityId,
        dependency_type := dd.dependencyType.getD "direct",
        criticality := dd.criticality.getD "high" })
    config1
  pure config2

/-!
Concrete example data, used to exercise the theorems below on closed
inputs.
-/

/-- A healthy record as the REST client would shape it. -/
def recHealthy : HealthRecord :=
  { state := some "Healthy", state_color := some "green",
    state_code := some "HEALTHY", timestamp := some "t1", kind := none,
    displayName := some "Api Service" }

/-- A record marked as the health-model root via `details.kind`. -/
def recRootMarked : HealthRecord :=
  { state := some "Degraded", state_color := some "amber",
    state_code := some "DEGRADED", timestamp := none,
    kind := some "System_HealthModelRoot", displayName := none }

/-- Example workload entity with id `"root"`. -/
def entRoot : HealthModelEntity :=
  { id := "root", name := "Root", entity_type := .workload,
    description := "root entity", parent_entity_id := none,
    azure_resource_id := none, signals := [], metadata := [] }

/-- Example api entity. -/
def entApi : HealthModelEntity :=
  { id := "api", name := "Api", entity_type := .api,
    description := "api entity", parent_entity_id := some "root",
    azure_resource_id := none, signals := [("response_time", "sig1")],
    metadata := [] }

/-- Example database entity. -/
def entDb : HealthModelEntity :=
  { id := "db", name := "Db", entity_type := .database,
    description := "db entity", parent_entity_id := some "api",
    azure_resource_id := some "/subscriptions/s/db", signals := [],
    metadata := [("k", "v")] }

/-- Example graph: `root <- api <- db`, plus an optional medium edge
`db -> root`. -/
def exampleConfig : HealthModelConfig :=
  { model_id := "m1", model_name := "Example", description := "example graph",
    owner_team := "team", version := "1.0.0",
    entities := [("root", entRoot), ("api", entApi), ("db", entDb)],
    dependencies :=
      [{ source_entity_id := "api", target_entity_id := "root",
         dependency_type := "direct", criticality := "critical" },
       { source_entity_id := "db", target_entity_id := "api",
         dependency_type := "direct", criticality := "high" },
       { source_entity_id := "db", target_entity_id := "root",
         dependency_type := "optional", criticality := "medium" }] }

/-- Graph whose entity `"svc"` has dependents with criticalities
`medium`, `critical`, `high` (the max-rule example of the spec). -/
def impactConfig : HealthModelConfig :=
  { model_id := "m2", model_name := "Impact", description := "impact graph",
    owner_team := "team", version := "1.0.0",
    entities :=
      [("svc", { id := "svc", name := "Svc", entity_type := .service,
                 description := "svc", parent_entity_id := none,
                 azure_resource_id := none, signals := [], metadata := [] }),
       ("a", { id := "a", name := "A", entity_type := .service,
               description := "a", parent_entity_id := none,
               azure_resource_id := none, signals := [], metadata := [] }),
       ("b", { id := "b", name := "B", entity_type := .service,
               description := "b", parent_entity_id := none,
               azure_resource_id := none, signals := [], metadata := [] }),
       ("c", { id := "c", name := "C", entity_type := .service,
               description := "c", parent_entity_id := none,
               azure_resource_id := none, signals := [], metadata := [] })],
    dependencies :=
      [{ source_entity_id := "svc", target_entity_id := "a",
         dependency_type := "direct", criticality := "medium" },
       { source_entity_id := "svc", target_entity_id := "b",
         dependency_type := "direct", criticality := "critical" },
       { source_entity_id := "svc", target_entity_id := "c",
         dependency_type := "direct", criticality := "high" }] }

/-- The empty graph. -/
def emptyConfig : HealthModelConfig :=
  { model_id := "m0", model_name := "Empty", description := "empty graph",
    owner_team := "team", version := "1.0.0", entities := [],
    dependencies := [] }

/-- Graph whose entity `"svc"` has one dependent edge carrying an
unrecognized criticality string. -/
def unknownCritConfig : HealthModelConfig :=
  { model_id := "m3", model_name := "Odd", description := "odd criticality",
    owner_team := "team", version := "1.0.0",
    entities :=
      [("svc", { id := "svc", name := "Svc", entity_type := .service,
                 description := "svc", parent_entity_id := none,
                 azure_resource_id := none, signals := [], metadata := [] }),
       ("a", { id := "a", name := "A", entity_type := .service,
               description := "a", parent_entity_id := none,
               azure_resource_id := none, signals := [], metadata := [] })],
    dependencies :=
      [{ source_entity_id := "svc", target_entity_id := "a",
         dependency_type := "direct", criticality := "banana" },
       { source_entity_id := "svc", target_entity_id := "missing",
         dependency_type := "direct", criticality := "urgent" }] }

/-- A critical edge into `"root"` and an optional medium edge, in one
order... -/
def reorderConfigA : HealthModelConfig :=
  { model_id := "m4", model_name := "A", description := "order a",
    owner_team := "team", version := "1.0.0", entities := [],
    dependencies :=
      [{ source_entity_id := "api", target_entity_id := "root",
         dependency_type := "direct", criticality := "critical" },
       { source_entity_id := "db", target_entity_id := "root",
         dependency_type := "optional", criticality := "medium" },
       { source_entity_id := "cache", target_entity_id := "api",
         dependency_type := "optional", criticality := "low" }] }

/-- Companion to `reorderConfigA`: the same critical edges with the non-critical edges reordered
and one of them dropped. -/
def reorderConfigB : HealthModelConfig :=
  { model_id := "m4", model_name := "B", description := "order b",
    owner_team := "team", version := "1.0.0", entities := [],
    dependencies :=
      [{ source_entity_id := "db", target_entity_id := "root",
         dependency_type := "optional", criticality := "medium" },
       { source_entity_id := "api", target_entity_id := "root",
         dependency_type := "direct", criticality := "critical" }] }

/-- A declarative document whose single entity declares the undefined
entity type `"blimp"`. -/
def badTypeDoc : ConfigDoc :=
  { modelId := "m5", modelName := "Bad", description := "bad type",
    ownerTeam := "team", version := some "1.0.0",
    entities :=
      [("x", { id := "x", name := "X", type_ := "blimp",
               description := "x", parentEntityId := none,
               azureResourceId := none, signals := none,
               metadata := none })],
    dependencies := [] }

/-!
Theorems.
-/

theorem summary_foldl_counts (R : HealthRecords) (s : HealthSummary) :
    (R.foldl summary_step s).total_entities = s.total_entities
    ∧ (R.foldl summary_step s).healthy_count
      = s.healthy_count
        + R.countP (fun p => (p.2.state.getD "Unknown").toLower == "healthy")
    ∧ (R.foldl summary_step s).degraded_count
      = s.degraded_count
        + R.countP (fun p => (p.2.state.getD "Unknown").toLower == "degraded")
    ∧ (R.foldl summary_step s).unhealthy_count
      = s.unhealthy_count
        + R.countP (fun p => (p.2.state.getD "Unknown").toLower == "unhealthy")
    ∧ (R.foldl summary_step s).unknown_count
      = s.unknown_count
        + R.countP (fun p =>
            !((p.2.state.getD "Unknown").toLower == "healthy"
              || (p.2.state.getD "Unknown").toLower == "degraded"
              || (p.2.state.getD "Unknown").toLower == "unhealthy")) := by
  induction R generalizing s with
  | nil => simp
  | cons a t ih =>
    obtain ⟨iht, ih1, ih2, ih3, ih4⟩ := ih (summary_step s a)
    simp only [List.foldl_cons, List.countP_cons]
    by_cases h1 : (a.2.state.getD "Unknown").toLower = "healthy"
    · have c0 : (summary_step s a).total_entities = s.total_entities := by
        simp [summary_step, h1]
      have c1 : (summary_step s a).healthy_count = s.healthy_count + 1 := by
        simp [summary_step, h1]
      have c2 : (summary_step s a).degraded_count = s.degraded_count := by
        simp [summary_step, h1]
      have c3 : (summary_step s a).unhealthy_count = s.unhealthy_count := by
        simp [summary_step, h1]
      have c4 : (summary_step s a).unknown_count = s.unknown_count := by
        simp [summary_step, h1]
      rw [c0] at iht; rw [c1] at ih1; rw [c2] at ih2; rw [c3] at ih3
      rw [c4] at ih4
      refine ⟨iht, ?_, ?_, ?_, ?_⟩
      · rw [ih1, if_pos (by simp [h1])]; omega
      · rw [ih2, if_neg (by simp [h1])]; omega
      · rw [ih3, if_neg (by simp [h1])]; omega
      · rw [ih4, if_neg (by simp [h1])]; omega
    · by_cases h2 : (a.2.state.getD "Unknown").toLower = "degraded"
      · have c0 : (summary_step s a).total_entities = s.total_entities := by
          simp [summary_step, h1, h2]
        have c1 : (summary_step s a).healthy_count = s.healthy_count := by
          simp [summary_step, h1, h2]
        have c2 : (summary_step s a).degraded_count
            = s.degraded_count + 1 := by
          simp [summary_step, h1, h2]
        have c3 : (summary_step s a).unhealthy_count = s.unhealthy_count := by
          simp [summary_step, h1, h2]
        have c4 : (summary_step s a).unknown_count = s.unknown_count := by
          simp [summary_step, h1, h2]
        rw [c0] at iht; rw [c1] at ih1; rw [c2] at ih2; rw [c3] at ih3
        rw [c4] at ih4
        refine ⟨iht, ?_, ?_, ?_, ?_⟩
        · rw [ih1, if_neg (by simp [h1])]; omega
        · rw [ih2, if_pos (by simp [h2])]; omega
        · rw [ih3, if_neg (by simp [h2])]; omega
        · rw [ih4, if_neg (by simp [h1, h2])]; omega
      · by_cases h3 : (a.2.state.getD "Unknown").toLower = "unhealthy"
        · have c0 : (summary_step s a).total_entities = s.total_entities := by
            simp [summary_step, h1, h2, h3]
          have c1 : (summary_step s a).healthy_count = s.healthy_count := by
            simp [summary_step, h1, h2, h3]
          have c2 : (summary_step s a).degraded_count = s.degraded_count := by
            simp [summary_step, h1, h2, h3]
          have c3 : (summary_step s a).unhealthy_count
              = s.unhealthy_count + 1 := by
            simp [summary_step, h1, h2, h3]
          have c4 : (summary_step s a).unknown_count = s.unknown_count := by
            simp [summary_step, h1, h2, h3]
          rw [c0] at iht; rw [c1] at ih1; rw [c2] at ih2; rw [c3] at ih3
          rw [c4] at ih4
          refine ⟨iht, ?_, ?_, ?_, ?_⟩
          · rw [ih1, if_neg (by simp [h1])]; omega
          · rw [ih2, if_neg (by simp [h2])]; omega
          · rw [ih3, if_pos (by simp [h3])]; omega
          · rw [ih4, if_neg (by simp [h1, h2, h3])]; omega
        · have c0 : (summary_step s a).total_entities = s.total_entities := by
            simp [summary_step, h1, h2, h3]
          have c1 : (summary_step s a).healthy_count = s.healthy_count := by
            simp [summary_step, h1, h2, h3]
          have c2 : (summary_step s a).degraded_count = s.degraded_count := by
            simp [summary_step, h1, h2, h3]
          have c3 : (summary_step s a).unhealthy_count
              = s.unhealthy_count := by
            simp [summary_step, h1, h2, h3]
          have c4 : (summary_step s a).unknown_count
              = s.unknown_count + 1 := by
            simp [summary_step, h1, h2, h3]
          rw [c0] at iht; rw [c1] at ih1; rw [c2] at ih2; rw [c3] at ih3
          rw [c4] at ih4
          refine ⟨iht, ?_, ?_, ?_, ?_⟩
          · rw [ih1, if_neg (by simp [h1])]; omega
          · rw [ih2, if_neg (by simp [h2])]; omega
          · rw [ih3, if_neg (by simp [h3])]; omega
          · rw [ih4, if_pos (by simp [h1, h2, h3])]; omega

theorem countP_buckets_partition (R : HealthRecords) :
    R.countP (fun p => (p.2.state.getD "Unknown").toLower == "healthy")
    + R.countP (fun p => (p.2.state.getD "Unknown").toLower == "degraded")
    + R.countP (fun p => (p.2.state.getD "Unknown").toLower == "unhealthy")
    + R.countP (fun p =>
        !((p.2.state.getD "Unknown").toLower == "healthy"
          || (p.2.state.getD "Unknown").toLower == "degraded"
          || (p.2.state.getD "Unknown").toLower == "unhealthy"))
    = R.length := by
  induction R with
  | nil => simp
  | cons a t ih =>
    simp only [List.countP_cons, List.length_cons]
    by_cases h1 : (a.2.state.getD "Unknown").toLower = "healthy"
    · rw [if_pos (by simp [h1]), if_neg (by simp [h1]),
        if_neg (by simp [h1]), if_neg (by simp [h1])]
      omega
    · by_cases h2 : (a.2.state.getD "Unknown").toLower = "degraded"
      · rw [if_neg (by simp [h1]), if_pos (by simp [h2]),
          if_neg (by simp [h2]), if_neg (by simp [h1, h2])]
        omega
      · by_cases h3 : (a.2.state.getD "Unknown").toLower = "unhealthy"
        · rw [if_neg (by simp [h1]), if_neg (by simp [h2]),
            if_pos (by simp [h3]), if_neg (by simp [h1, h2, h3])]
          omega
        · rw [if_neg (by simp [h1]), if_neg (by simp [h2]),
            if_neg (by simp [h3]), if_pos (by simp [h1, h2, h3])]
          omega

/-- C2: `get_health_summary` reports `total_entities = len(R)`; buckets
every record by its lower-cased state (default `"Unknown"` when missing)
into exactly one of the four buckets, any unrecognized state counting as
unknown; the four bucket counts sum to `len(R)`; and on the empty snapshot
it returns zero totals and all percentages `0`, with no division
performed. -/
theorem get_health_summary_spec (R : HealthRecords) :
    (get_health_summary R).total_entities = R.length
    ∧ (get_health_summary R).healthy_count
      = R.countP (fun p => (p.2.state.getD "Unknown").toLower == "healthy")
    ∧ (get_health_summary R).degraded_count
      = R.countP (fun p => (p.2.state.getD "Unknown").toLower == "degraded")
    ∧ (get_health_summary R).unhealthy_count
      = R.countP (fun p => (p.2.state.getD "Unknown").toLower == "unhealthy")
    ∧ (get_health_summary R).unknown_count
      = R.countP (fun p =>
          !((p.2.state.getD "Unknown").toLower == "healthy"
            || (p.2.state.getD "Unknown").toLower == "degraded"
            || (p.2.state.getD "Unknown").toLower == "unhealthy"))
    ∧ (get_health_summary R).healthy_count
        + (get_health_summary R).degraded_count
        + (get_health_summary R).unhealthy_count
        + (get_health_summary R).unknown_count = R.length
    ∧ (get_health_summary ([] : HealthRecords)).total_entities = 0
    ∧ (get_health_summary ([] : HealthRecords)).pct_healthy = 0
    ∧ (get_health_summary ([] : HealthRecords)).pct_degraded = 0
    ∧ (get_health_summary ([] : HealthRecords)).pct_unhealthy = 0
    ∧ (get_health_summary ([] : HealthRecords)).pct_unknown = 0 := by
  obtain ⟨ht, h1, h2, h3, h4⟩ := summary_foldl_counts R
    { total_entities := R.length,
      healthy_count := 0, degraded_count := 0, unhealthy_count := 0,
      unknown_count := 0,
      pct_healthy := 0, pct_degraded := 0, pct_unhealthy := 0,
      pct_unknown := 0,
      healthy_entities := [], degraded_entities := [],
      unhealthy_entities := [], unknown_entities := [] }

  have hmain : (get_health_summary R).total_entities = R.length
      ∧ (get_health_summary R).healthy_count
        = R.countP (fun p => (p.2.state.getD "Unknown").toLower == "healthy")
      ∧ (get_health_summary R).degraded_count
        = R.countP (fun p => (p.2.state.getD "Unknown").toLower == "degraded")
      ∧ (get_health_summary R).unhealthy_count
        = R.countP
            (fun p => (p.2.state.getD "Unknown").toLower == "unhealthy")
      ∧ (get_health_summary R).unknown_count
        = R.countP (fun p =>
            !((p.2.state.getD "Unknown").toLower == "healthy"
              || (p.2.state.getD "Unknown").toLower == "degraded"
              || (p.2.state.getD "Unknown").toLower == "unhealthy")) := by
    unfold get_health_summary
    dsimp only
    split
    · exact ⟨by simpa using ht, by simpa using h1, by simpa using h2,
        by simpa using h3, by simpa using h4⟩
    · exact ⟨by simpa using ht, by simpa using h1, by simpa using h2,
        by simpa using h3, by simpa using h4⟩
  obtain ⟨m0, m1, m2, m3, m4⟩ := hmain
  refine ⟨m0, m1, m2, m3, m4, ?_, rfl, rfl, rfl, rfl, rfl⟩
  rw [m1, m2, m3, m4]
  exact countP_buckets_partition R

theorem find?_eq_of_filter_singleton {α : Type} (p : α → Bool)
    (l : List α) (a : α) (h : l.filter p = [a]) : l.find? p = some a := by
  induction l with
  | nil => simp at h
  | cons x t ih =>
    by_cases hx : p x
    · rw [List.filter_cons_of_pos hx] at h
      rw [List.find?_cons_of_pos _ hx]
      simp only [List.cons.injEq] at h
      exact congrArg some h.1
    · rw [List.filter_cons_of_neg (by simpa using hx)] at h
      rw [List.find?_cons_of_neg _ (by simpa using hx)]
      exact ih h

/-- C3: `get_workload_health` follows exactly the fallback chain: the
unique record whose `details.kind` is `"System_HealthModelRoot"` is
returned wherever it sits in the snapshot; with no such marker the
first-inserted record is returned; on the empty snapshot a synthetic
`Unknown/gray` placeholder is returned — the function is total, so it
never raises. -/
theorem get_workload_health_spec (R : HealthRecords) :
    (∀ k r, R.filter (fun p => isRootRecord p.2) = [(k, r)] →
        get_workload_health R = r)
    ∧ ((∀ p ∈ R, ¬ isRootRecord p.2) →
        ∀ k r rest, R = (k, r) :: rest → get_workload_health R = r)
    ∧ (R = [] →
        get_workload_health R = placeholderRecord
        ∧ (get_workload_health R).state = some "Unknown"
        ∧ (get_workload_health R).state_color = some "gray") := by
  refine ⟨?_, ?_, ?_⟩
  · intro k r h
    unfold get_workload_health
    rw [find?_eq_of_filter_singleton _ _ _ h]
  · intro hno k r rest hR
    unfold get_workload_health
    rw [List.find?_eq_none.mpr (by simpa using hno), hR]
  · intro h
    subst h
    exact ⟨rfl, rfl, rfl⟩

/-- Closed witness for C3: the marked record sits in second position and
is still the one returned. -/
theorem get_workload_health_witness :
    get_workload_health [("api", recHealthy), ("rt", recRootMarked)]
      = recRootMarked :=
  (get_workload_health_spec
      [("api", recHealthy), ("rt", recRootMarked)]).1
    "rt" recRootMarked (by decide)

/-- C1: `get_health_tree` has exactly one entry per entity of the graph,
keyed by the entity's id, in entity insertion order; an entity whose id is
absent from the records snapshot gets state `"Unknown"` and state_color
`"gray"`; and each entry's dependency summary lists `depends_on` = the
source ids of the edges targeting that entity and `depended_by` = the
target ids of the edges leaving it, in edge insertion order. -/
theorem get_health_tree_spec (cfg : HealthModelConfig) (R : HealthRecords) :
    (get_health_tree cfg R).map Prod.fst = cfg.entities.map Prod.fst
    ∧ ∀ i (hi : i < cfg.entities.length)
        (ht : i < (get_health_tree cfg R).length),
        ((get_health_tree cfg R).get ⟨i, ht⟩).1
          = (cfg.entities.get ⟨i, hi⟩).1
        ∧ (dictGet (cfg.entities.get ⟨i, hi⟩).1 R = none →
            ((get_health_tree cfg R).get ⟨i, ht⟩).2.state = "Unknown"
            ∧ ((get_health_tree cfg R).get ⟨i, ht⟩).2.state_color = "gray")
        ∧ ((get_health_tree cfg R).get ⟨i, ht⟩).2.dependencies.depends_on
          = (cfg.dependencies.filter (fun d =>
              d.target_entity_id == (cfg.entities.get ⟨i, hi⟩).1)).map
              (fun d => d.source_entity_id)
        ∧ ((get_health_tree cfg R).get ⟨i, ht⟩).2.dependencies.depended_by
          = (cfg.dependencies.filter (fun d =>
              d.source_entity_id == (cfg.entities.get ⟨i, hi⟩).1)).map
              (fun d => d.target_entity_id) := by
  constructor
  · simp [get_health_tree]
  · intro i hi ht
    have hg : (get_health_tree cfg R).get ⟨i, ht⟩
        = (fun p => (p.1,
            ({ name := p.2.name,
               type_ := p.2.entity_type.value,
               state := ((dictGet p.1 R).bind
                 (fun h => h.state)).getD "Unknown",
               state_color := ((dictGet p.1 R).bind
                 (fun h => h.state_color)).getD "gray",
               timestamp := (dictGet p.1 R).bind (fun h => h.timestamp),
               parent := p.2.parent_entity_id,
               signals := p.2.signals,
               dependencies := get_entity_deps cfg p.1 } : TreeEntry)))
          (cfg.entities.get ⟨i, hi⟩) := by
      unfold get_health_tree
      exact List.get_map _
    rw [hg]
    refine ⟨rfl, ?_, ?_, ?_⟩
    · intro hnone
      rw [List.get_eq_getElem] at hnone
      constructor <;> simp [hnone]
    · simp [get_entity_deps, HealthModelConfig.get_entity_dependencies]
    · simp [get_entity_deps, HealthModelConfig.get_entity_dependents]

/-- Closed witness for C1: on the example graph with a snapshot that only
covers `"api"`, the tree keys follow entity insertion order and the entity
`"root"`, absent from the snapshot, defaults to `Unknown/gray`; its
dependency summary lists the sources of its inbound edges and the targets
of its outbound edges. -/
theorem get_health_tree_witness :
    dictGet "root" [("api", recHealthy)] = none
    ∧ (get_health_tree exampleConfig [("api", recHealthy)]).map Prod.fst
      = exampleConfig.entities.map Prod.fst
    ∧ ((get_health_tree exampleConfig
        [("api", recHealthy)]).get ⟨0, by decide⟩).2.state = "Unknown"
    ∧ ((get_health_tree exampleConfig
        [("api", recHealthy)]).get ⟨0, by decide⟩).2.state_color = "gray"
    ∧ ((get_health_tree exampleConfig
        [("api", recHealthy)]).get
          ⟨0, by decide⟩).2.dependencies.depends_on = ["api", "db"] := by
  have h := get_health_tree_spec exampleConfig [("api", recHealthy)]
  have h0 := h.2 0 (by decide) (by decide)
  have habs := h0.2.1 (by decide)
  refine ⟨by decide, h.1, habs.1, habs.2, ?_⟩
  exact h0.2.2.1.trans (by decide)

theorem foldl_max_eq_max_foldr (l : List Nat) :
    ∀ a : Nat, l.foldl max a = max a (l.foldr max 0) := by
  induction l with
  | nil => intro a; simp
  | cons x t ih =>
    intro a
    rw [List.foldl_cons, List.foldr_cons, ih (max a x), Nat.max_assoc]

theorem pymax_eq_foldr (l : List Nat) : pymax l = l.foldr max 0 := by
  cases l with
  | nil => rfl
  | cons x t =>
    show t.foldl max x = (x :: t).foldr max 0
    rw [foldl_max_eq_max_foldr t x, List.foldr_cons]

theorem foldr_max_eq_zero (l : List Nat) (h : ∀ x ∈ l, x = 0) :
    l.foldr max 0 = 0 := by
  induction l with
  | nil => rfl
  | cons x t ih =>
    rw [List.foldr_cons, ih (fun y hy => h y (by simp [hy])),
      h x (by simp)]
    rfl

theorem dictGet_eq_none_of_not_mem {κ α : Type} [DecidableEq κ] (k : κ)
    (l : List (κ × α)) (h : k ∉ l.map Prod.fst) : dictGet k l = none := by
  induction l with
  | nil => rfl
  | cons p t ih =>
    obtain ⟨k', v⟩ := p
    have h' : k ≠ k' ∧ k ∉ t.map Prod.fst := by
      rw [List.map_cons, List.mem_cons] at h
      push_neg at h
      exact h
    rw [dictGet, if_neg (fun hc => h'.1 hc.symm)]
    exact ih h'.2

theorem impact_affected_foldl (cfg : HealthModelConfig)
    (l : List EntityDependency) (acc : List AffectedService) :
    l.foldl (fun acc dep =>
      match dictGet dep.target_entity_id cfg.entities with
      | some e =>
          acc ++ [{ entity_id := e.id, entity_name := e.name,
                    criticality := dep.criticality,
                    dependency_type := dep.dependency_type }]
      | none => acc) acc
    = acc ++ l.filterMap (fun d =>
        (dictGet d.target_entity_id cfg.entities).map
          (fun e => { entity_id := e.id, entity_name := e.name,
                      criticality := d.criticality,
                      dependency_type := d.dependency_type })) := by
  induction l generalizing acc with
  | nil => simp
  | cons d t ih =>
    rw [List.foldl_cons, List.filterMap_cons]
    cases hdg : dictGet d.target_entity_id cfg.entities with
    | none => simp only [hdg, Option.map_none]; exact ih acc
    | some e =>
      simp only [hdg, Option.map_some]
      rw [ih]
      simp [List.append_assoc]

theorem impact_eval (cfg : HealthModelConfig) (entity_id : String)
    (h : cfg.get_entity_dependents entity_id ≠ []) :
    dictGet "impact_severity" (get_dependency_impact cfg entity_id)
      = some (ImpactValue.str ((dictGet
          (((cfg.get_entity_dependents entity_id).map
            (fun d => (dictGet d.criticality severity_levels).getD 0)).foldr
              max 0) severity_map).getD "low"))
    ∧ dictGet "affected_services" (get_dependency_impact cfg entity_id)
      = some (ImpactValue.services
          ((cfg.get_entity_dependents entity_id).filterMap
            (fun d => (dictGet d.target_entity_id cfg.entities).map
              (fun e => { entity_id := e.id, entity_name := e.name,
                          criticality := d.criticality,
                          dependency_type := d.dependency_type })))) := by
  unfold get_dependency_impact
  rw [if_neg (by simpa using h)]
  dsimp only
  rw [pymax_eq_foldr, impact_affected_foldl cfg
    (cfg.get_entity_dependents entity_id) []]
  simp [dictInsert, dictGet]

/-- C4: with a non-empty dependent set, `impact_severity` is the label
obtained by ranking each dependent edge's criticality through
`severity_levels`, taking the maximum rank and mapping it back through the
inverse `severity_map`; `affected_services` holds one entry per dependent
edge whose target entity resolves in the graph, edges with dangling
targets being skipped silently. -/
theorem get_dependency_impact_spec (cfg : HealthModelConfig)
    (entity_id : String) (h : cfg.get_entity_dependents entity_id ≠ []) :
    dictGet "impact_severity" (get_dependency_impact cfg entity_id)
      = some (ImpactValue.str ((dictGet
          (((cfg.get_entity_dependents entity_id).map
            (fun d => (dictGet d.criticality severity_levels).getD 0)).foldr
              max 0) severity_map).getD "low"))
    ∧ dictGet "affected_services" (get_dependency_impact cfg entity_id)
      = some (ImpactValue.services
          ((cfg.get_entity_dependents entity_id).filterMap
            (fun d => (dictGet d.target_entity_id cfg.entities).map
              (fun e => { entity_id := e.id, entity_name := e.name,
                          criticality := d.criticality,
                          dependency_type := d.dependency_type })))) :=
  impact_eval cfg entity_id h

/-- Closed witness for C4: dependents with criticalities
`[medium, critical, high]` resolve to severity `"critical"`, and all three
targets appear as affected services. -/
theorem get_dependency_impact_witness :
    dictGet "impact_severity" (get_dependency_impact impactConfig "svc")
      = some (ImpactValue.str "critical")
    ∧ dictGet "affected_services" (get_dependency_impact impactConfig "svc")
      = some (ImpactValue.services
          [{ entity_id := "a", entity_name := "A", criticality := "medium",
             dependency_type := "direct" },
           { entity_id := "b", entity_name := "B", criticality := "critical",
             dependency_type := "direct" },
           { entity_id := "c", entity_name := "C", criticality := "high",
             dependency_type := "direct" }]) := by
  obtain ⟨hs, ha⟩ := get_dependency_impact_spec impactConfig "svc" (by decide)
  exact ⟨hs.trans (by decide), ha.trans (by decide)⟩

/-- Counterexample for C5 as stated: even with zero dependents the
returned mapping is not the three-key
`{failed_entity, affected_services, impact_severity}` dict — it always
carries a fourth key `failed_entity_name`. -/
theorem get_dependency_impact_counterexample :
    get_dependency_impact emptyConfig "x"
      ≠ [("failed_entity", ImpactValue.str "x"),
         ("affected_services", ImpactValue.services []),
         ("impact_severity", ImpactValue.str "low")]
    ∧ ("failed_entity_name", ImpactValue.null)
      ∈ get_dependency_impact emptyConfig "x" := by decide

/-- C5 amended: with zero dependent edges, `get_dependency_impact` returns
exactly the four-key mapping `{failed_entity: entity_id,
failed_entity_name: the entity's name if it is in the graph else None,
affected_services: [], impact_severity: "low"}`. -/
theorem get_dependency_impact_no_dependents (cfg : HealthModelConfig)
    (entity_id : String) (h : cfg.get_entity_dependents entity_id = []) :
    get_dependency_impact cfg entity_id
      = [("failed_entity", ImpactValue.str entity_id),
         ("failed_entity_name",
           match dictGet entity_id cfg.entities with
           | some e => ImpactValue.str e.name
           | none => ImpactValue.null),
         ("affected_services", ImpactValue.services []),
         ("impact_severity", ImpactValue.str "low")] := by
  unfold get_dependency_impact
  rw [if_pos (by simp [h])]

/-- Closed witness for C5 amended: evaluated on the empty graph. -/
theorem get_dependency_impact_no_dependents_witness :
    get_dependency_impact emptyConfig "y"
      = [("failed_entity", ImpactValue.str "y"),
         ("failed_entity_name", ImpactValue.null),
         ("affected_services", ImpactValue.services []),
         ("impact_severity", ImpactValue.str "low")] :=
  (get_dependency_impact_no_dependents emptyConfig "y" (by decide)).trans
    (by decide)

/-- C10: a dependent edge whose criticality string is unrecognized ranks 0,
the same as `"low"`; when every dependent edge carries an unrecognized
criticality the severity is `"low"`, while those edges still appear in
`affected_services` (when their targets exist) carrying the unrecognized
string verbatim. -/
theorem get_dependency_impact_unrecognized_crit (cfg : HealthModelConfig)
    (entity_id : String)
    (h1 : cfg.get_entity_dependents entity_id ≠ [])
    (h2 : ∀ d ∈ cfg.get_entity_dependents entity_id,
        d.criticality ∉ (["critical", "high", "medium", "low"] :
          List String)) :
    dictGet "impact_severity" (get_dependency_impact cfg entity_id)
      = some (ImpactValue.str "low")
    ∧ dictGet "affected_services" (get_dependency_impact cfg entity_id)
      = some (ImpactValue.services
          ((cfg.get_entity_dependents entity_id).filterMap
            (fun d => (dictGet d.target_entity_id cfg.entities).map
              (fun e => { entity_id := e.id, entity_name := e.name,
                          criticality := d.criticality,
                          dependency_type := d.dependency_type })))) := by
  obtain ⟨hs, ha⟩ := impact_eval cfg entity_id h1
  refine ⟨?_, ha⟩
  rw [hs]
  have hzero : ((cfg.get_entity_dependents entity_id).map
      (fun d => (dictGet d.criticality severity_levels).getD 0)).foldr
        max 0 = 0 := by
    apply foldr_max_eq_zero
    intro x hx
    rw [List.mem_map] at hx
    obtain ⟨d, hd, hdx⟩ := hx
    have hnone : dictGet d.criticality severity_levels = none := by
      apply dictGet_eq_none_of_not_mem
      simpa [severity_levels] using h2 d hd
    rw [← hdx, hnone]
    rfl
  rw [hzero]
  rfl

/-- Closed witness for C10: two dependent edges with criticalities
`"banana"` and `"urgent"`; severity is `"low"`, the resolvable target
appears with `"banana"` verbatim, the dangling one is skipped. -/
theorem get_dependency_impact_unrecognized_crit_witness :
    dictGet "impact_severity" (get_dependency_impact unknownCritConfig "svc")
      = some (ImpactValue.str "low")
    ∧ dictGet "affected_services"
        (get_dependency_impact unknownCritConfig "svc")
      = some (ImpactValue.services
          [{ entity_id := "a", entity_name := "A", criticality := "banana",
             dependency_type := "direct" }]) := by
  obtain ⟨hs, ha⟩ := get_dependency_impact_unrecognized_crit
    unknownCritConfig "svc" (by decide) (by decide)
  exact ⟨hs, ha.trans (by decide)⟩

theorem trace_nodup (cfg : HealthModelConfig) (stack path : List String)
    (h : path.Nodup) : (trace cfg stack path).Nodup := by
  induction stack, path using trace.induct cfg with
  | case1 path => simpa [trace] using h
  | case2 path entity_id rest hmem ih =>
    rw [trace, if_pos hmem]
    exact ih h
  | case3 path entity_id rest hmem ih =>
    rw [trace, if_neg hmem]
    apply ih
    simp [List.nodup_append, h, hmem]

/-- C6: the critical-path traversal terminates on every graph (the
traversal function is total by well-founded recursion, cycles included) and
the returned sequence contains each entity id at most once: an id once
appended is never re-appended, even when reachable along two different
critical edges. -/
theorem get_critical_path_nodup (cfg : HealthModelConfig) :
    (get_critical_path cfg).Nodup :=
  trace_nodup cfg ["root"] [] List.nodup_nil

theorem filter_crit_dependencies (cfg cfg2 : HealthModelConfig)
    (h : cfg.dependencies.filter isCriticalOrHigh
      = cfg2.dependencies.filter isCriticalOrHigh) (entity_id : String) :
    (cfg.get_entity_dependencies entity_id).filter isCriticalOrHigh
      = (cfg2.get_entity_dependencies entity_id).filter isCriticalOrHigh := by
  unfold HealthModelConfig.get_entity_dependencies
  rw [List.filter_filter, List.filter_filter]
  have hcomm : ∀ (l : List EntityDependency),
      l.filter (fun a => isCriticalOrHigh a
          && (a.target_entity_id == entity_id))
        = l.filter (fun a => (a.target_entity_id == entity_id)
          && isCriticalOrHigh a) := by
    intro l
    apply List.filter_congr
    intro d _
    exact Bool.and_comm _ _
  rw [hcomm, hcomm, ← List.filter_filter, ← List.filter_filter, h]

theorem trace_congr (cfg cfg2 : HealthModelConfig)
    (h : cfg.dependencies.filter isCriticalOrHigh
      = cfg2.dependencies.filter isCriticalOrHigh)
    (stack path : List String) :
    trace cfg stack path = trace cfg2 stack path := by
  induction stack, path using trace.induct cfg with
  | case1 path => rw [trace, trace]
  | case2 path entity_id rest hmem ih =>
    rw [trace, trace, if_pos hmem, if_pos hmem]
    exact ih
  | case3 path entity_id rest hmem ih =>
    rw [trace, trace, if_neg hmem, if_neg hmem]
    rw [← filter_crit_dependencies cfg cfg2 h entity_id]
    exact ih

/-- C7: the critical-path sequence depends only on the sublist of
critical/high edges: two graphs whose dependency lists agree on the edges
with criticality `"critical"` or `"high"` (so re-ordering or removing the
other edges) produce the same walk. -/
theorem get_critical_path_congr (cfg cfg2 : HealthModelConfig)
    (h : cfg.dependencies.filter isCriticalOrHigh
      = cfg2.dependencies.filter isCriticalOrHigh) :
    get_critical_path cfg = get_critical_path cfg2 :=
  trace_congr cfg cfg2 h ["root"] []

/-- Closed witness for C7: the medium and low edges are re-ordered and one
of them dropped; the walk is unchanged. -/
theorem get_critical_path_congr_witness :
    get_critical_path reorderConfigA = get_critical_path reorderConfigB :=
  get_critical_path_congr reorderConfigA reorderConfigB (by decide)

theorem EntityType.ofValue_value (t : EntityType) :
    EntityType.ofValue t.value = some t := by
  cases t <;> rfl

theorem dictInsert_of_not_mem {κ α : Type} [DecidableEq κ] (k : κ) (v : α)
    (l : List (κ × α)) (h : k ∉ l.map Prod.fst) :
    dictInsert k v l = l ++ [(k, v)] := by
  induction l with
  | nil => rfl
  | cons p t ih =>
    obtain ⟨k', v'⟩ := p
    have h' : k ≠ k' ∧ k ∉ t.map Prod.fst := by
      rw [List.map_cons, List.mem_cons] at h
      push_neg at h
      exact h
    rw [dictInsert, if_neg (fun hc => h'.1 hc.symm), ih h'.2]
    rfl

theorem foldlM_load_entities (l : List (String × HealthModelEntity))
    (c : HealthModelConfig) :
    (l.map (fun p => (p.1, p.2.to_dict))).foldlM load_entity_step c
      = Except.ok (l.foldl (fun cfg p => cfg.add_entity p.2) c) := by
  induction l generalizing c with
  | nil => rfl
  | cons p t ih =>
    have hstep : load_entity_step c (p.1, p.2.to_dict)
        = Except.ok (c.add_entity p.2) := by
      simp [load_entity_step, HealthModelEntity.to_dict,
        EntityType.ofValue_value]
    rw [List.map_cons, List.foldlM_cons, hstep]
    exact ih (c.add_entity p.2)

theorem foldl_add_entity (l : List (String × HealthModelEntity))
    (c : HealthModelConfig)
    (hids : ∀ p ∈ l, p.1 = p.2.id)
    (hnodup : ((c.entities ++ l).map Prod.fst).Nodup) :
    l.foldl (fun cfg p => cfg.add_entity p.2) c
      = { c with entities := c.entities ++ l } := by
  induction l generalizing c with
  | nil => simp
  | cons p t ih =>
    have hid : p.1 = p.2.id := hids p (by simp)
    have hk : p.2.id ∉ c.entities.map Prod.fst := by
      rw [← hid]
      rw [List.map_append] at hnodup
      have hdisj := (List.nodup_append.mp hnodup).2.2
      intro hc
      exact hdisj hc (by simp)
    have hpair : (p.2.id, p.2) = p := by rw [← hid]
    have hadd : c.add_entity p.2 = { c with entities := c.entities ++ [p] } := by
      unfold HealthModelConfig.add_entity
      rw [dictInsert_of_not_mem _ _ _ hk, hpair]
    rw [List.foldl_cons, hadd,
      ih { c with entities := c.entities ++ [p] }
        (fun q hq => hids q (by simp [hq]))
        (by simpa [List.append_assoc] using hnodup)]
    simp [List.append_assoc]

theorem foldl_add_dependency (l : List EntityDependency)
    (c : HealthModelConfig) :
    l.foldl (fun cfg d => cfg.add_dependency d) c
      = { c with dependencies := c.dependencies ++ l } := by
  induction l generalizing c with
  | nil => simp
  | cons d t ih =>
    rw [List.foldl_cons, ih]
    unfold HealthModelConfig.add_dependency
    simp [List.append_assoc]

/-- C8: serializing a well-formed graph (entity dict keyed by its entities'
own unique ids) to the declarative JSON shape and loading that document
back yields the identical configuration: same entity fields, same edge
list, same entity and edge order. -/
theorem to_dict_load_from_json_round_trip (cfg : HealthModelConfig)
    (hids : ∀ p ∈ cfg.entities, p.1 = p.2.id)
    (hnodup : (cfg.entities.map Prod.fst).Nodup) :
    HealthModelConfig.load_from_json cfg.to_dict = Except.ok cfg := by
  unfold HealthModelConfig.load_from_json HealthModelConfig.to_dict
  dsimp only
  rw [foldlM_load_entities]
  show Except.ok _ = Except.ok cfg
  rw [foldl_add_entity cfg.entities _ hids (by simpa using hnodup)]
  rw [List.foldl_map]
  have hfun : (fun (cfg' : HealthModelConfig)
      (d : EntityDependency) => cfg'.add_dependency
        { source_entity_id :=
            (({ sourceEntityId := d.source_entity_id,
                targetEntityId := d.target_entity_id,
                dependencyType := some d.dependency_type,
                criticality := some d.criticality } :
              DependencyDoc)).sourceEntityId,
          target_entity_id :=
            (({ sourceEntityId := d.source_entity_id,
                targetEntityId := d.target_entity_id,
                dependencyType := some d.dependency_type,
                criticality := some d.criticality } :
              DependencyDoc)).targetEntityId,
          dependency_type :=
            (({ sourceEntityId := d.source_entity_id,
                targetEntityId := d.target_entity_id,
                dependencyType := some d.dependency_type,
                criticality := some d.criticality } :
              DependencyDoc)).dependencyType.getD "direct",
          criticality :=
            (({ sourceEntityId := d.source_entity_id,
                targetEntityId := d.target_entity_id,
                dependencyType := some d.dependency_type,
                criticality := some d.criticality } :
              DependencyDoc)).criticality.getD "high" })
      = fun (cfg' : HealthModelConfig) d => cfg'.add_dependency d := by
    funext cfg' d
    rfl
  rw [hfun, foldl_add_dependency]
  simp

/-- Closed witness for C8: the three-entity example graph survives the
round trip. -/
theorem to_dict_load_from_json_round_trip_witness :
    HealthModelConfig.load_from_json exampleConfig.to_dict
      = Except.ok exampleConfig :=
  to_dict_load_from_json_round_trip exampleConfig (by decide) (by decide)

theorem foldlM_load_error (l : List (String × EntityDoc))
    (c : HealthModelConfig)
    (h : ∃ p ∈ l, EntityType.ofValue p.2.type_ = none) :
    ∃ msg, l.foldlM load_entity_step c = Except.error msg := by
  induction l generalizing c with
  | nil => simp at h
  | cons p t ih =>
    rw [List.foldlM_cons]
    cases hv : EntityType.ofValue p.2.type_ with
    | none =>
      refine ⟨String.append p.2.type_ " is not a valid EntityType", ?_⟩
      have hstep : load_entity_step c p
          = Except.error (String.append p.2.type_
              " is not a valid EntityType") := by
        unfold load_entity_step
        rw [hv]
      rw [hstep]
      rfl
    | some ty =>
      have h' : ∃ q ∈ t, EntityType.ofValue q.2.type_ = none := by
        obtain ⟨q, hq, hqn⟩ := h
        rcases List.mem_cons.mp hq with rfl | hqt
        · rw [hv] at hqn
          exact absurd hqn (by simp)
        · exact ⟨q, hqt, hqn⟩
      obtain ⟨c', hc'⟩ : ∃ c', load_entity_step c p = Except.ok c' := by
        unfold load_entity_step
        rw [hv]
        exact ⟨_, rfl⟩
      obtain ⟨msg, hm⟩ := ih c' h'
      refine ⟨msg, ?_⟩
      rw [hc']
      exact hm

/-- C9: loading a declarative document containing an entity whose declared
type string is not a declared `EntityType` value fails hard at load time:
`load_from_json` returns an error and no graph at all, not even a piece, rather
than defaulting the entity type. -/
theorem load_from_json_invalid_entity_type (data : ConfigDoc)
    (h : ∃ p ∈ data.entities, EntityType.ofValue p.2.type_ = none) :
    ∃ msg, HealthModelConfig.load_from_json data = Except.error msg := by
  obtain ⟨msg, hm⟩ := foldlM_load_error data.entities
    { model_id := data.modelId, model_name := data.modelName,
      description := data.description, owner_team := data.ownerTeam,
      version := data.version.getD "1.0.0", entities := [],
      dependencies := [] } h
  refine ⟨msg, ?_⟩
  unfold HealthModelConfig.load_from_json
  dsimp only
  rw [hm]
  rfl

/-- Closed witness for C9: the document declaring entity type `"blimp"`
is rejected. -/
theorem load_from_json_invalid_entity_type_witness :
    ∃ msg, HealthModelConfig.load_from_json badTypeDoc
      = Except.error msg :=
  load_from_json_invalid_entity_type badTypeDoc (by decide)

end HealthModel
